import Mathlib

/-!
# Verification of the parallel-ACO experiment pipeline

Shallow embedding of `src/experiment/parallel_aco_experiment.py`
(class `TSPExperimentRunner`).  Python floats are modelled as exact
rationals (`ℚ`); `int(x)` truncation is modelled by `pyInt`; the
unseeded `np.random` draws consumed by the simulator are modelled as an
explicit `Randomness` input (one normal draw and one uniform draw per
simulator call), so every function is a deterministic function of its
inputs including the random draws.
-/

namespace ParallelACO

/-- A TSP benchmark instance from `TSPExperimentRunner.instances`:
name, known optimal objective, and city count (`size`). -/
structure TSPInstance where
  name : String
  optimal : ℚ
  size : ℕ
deriving DecidableEq

/-- The random draws consumed by one `simulate_aco_experiment` call:
`normalDraw` models the `np.random.normal(0, 0.02)` sample and
`uniformDraw` the `np.random.uniform(0.3, 0.8)` sample. -/
structure Randomness where
  normalDraw : ℚ
  uniformDraw : ℚ
deriving DecidableEq

/-- The dictionary returned by `simulate_aco_experiment`. -/
structure SimResult where
  execution_time_s : ℚ
  actual_iterations : ℤ
  tour_length : ℚ
  convergence_iteration : ℤ
deriving DecidableEq

/-- Python `int(x)` on a real value: truncation toward zero. -/
def pyInt (q : ℚ) : ℤ := if 0 ≤ q then ⌊q⌋ else ⌈q⌉

/-- The divisor `max(1, num_threads * 0.7)` appearing in
`simulate_aco_experiment` (lines 149 and 152). -/
def effective_parallel_factor (t : ℤ) : ℚ := max 1 ((t : ℚ) * (7 / 10))

/-- Python truthiness of the `time_budget` argument as used in
`if time_budget:` — `None` and `0.0` are falsy. -/
def budgetTruthy : Option ℚ → Bool
  | none => false
  | some q => decide (q ≠ 0)

/-- `TSPExperimentRunner.simulate_aco_experiment` (lines 134-170).
`base_time = size * 0.01`; with a truthy time budget the wall time is
`min(time_budget, base_time / max(1, 0.7 * threads))` and the iteration
count is capped by the per-iteration cost `base_time / max_iterations`;
otherwise the wall time is `base_time * max_iterations / max(1, 0.7 *
threads)` and all `max_iterations` iterations complete.  The quality
factor is `(1 + normal_draw)`, scaled by `1 - (threads - 1) * 0.01` for
more than one thread. -/
def simulate_aco_experiment (inst : TSPInstance) (num_threads : ℤ) (max_iterations : ℤ)
    (time_budget : Option ℚ) (rnd : Randomness) : SimResult :=
  let base_time : ℚ := (inst.size : ℚ) * (1 / 100)
  let execution_time : ℚ :=
    if budgetTruthy time_budget then
      min (time_budget.getD 0) (base_time / effective_parallel_factor num_threads)
    else
      base_time * (max_iterations : ℚ) / effective_parallel_factor num_threads
  let actual_iterations : ℤ :=
    if budgetTruthy time_budget then
      min max_iterations (pyInt (execution_time / (base_time / (max_iterations : ℚ))))
    else max_iterations
  let quality_factor : ℚ :=
    (1 + rnd.normalDraw) *
      (if 1 < num_threads then 1 - ((num_threads : ℚ) - 1) * (1 / 100) else 1)
  { execution_time_s := execution_time
    actual_iterations := actual_iterations
    tour_length := inst.optimal * quality_factor
    convergence_iteration := max 1 (pyInt ((actual_iterations : ℚ) * rnd.uniformDraw)) }

/-- `self.instances['eil51']`. -/
def eil51 : TSPInstance := ⟨"eil51", 426, 51⟩

/-- `self.instances['kroA100']`. -/
def kroA100 : TSPInstance := ⟨"kroA100", 21282, 100⟩

/-- `self.instances['ch150']`. -/
def ch150 : TSPInstance := ⟨"ch150", 6528, 150⟩

/-- `self.instances['gr202']`. -/
def gr202 : TSPInstance := ⟨"gr202", 40160, 202⟩

/-- The instance registry `self.instances`, in registration order. -/
def instanceCatalog : List TSPInstance := [eil51, kroA100, ch150, gr202]

/-- `self.thread_configs = [1, 2, 4, 8]` (line 63). -/
def thread_configs : List ℤ := [1, 2, 4, 8]

/-- The fields of one row of the experiment result log that the
verified properties are about (subset of the dict built at lines
263-283 and 348-368). -/
structure RunRecord where
  num_threads : ℤ
  run_idx : ℕ
  wall_time_s : ℚ
  actual_iterations : ℤ
  tour_length : ℚ
  speedup_ratio : ℚ
  efficiency : ℚ
  iterations_per_second : ℚ
deriving DecidableEq

/-- Build one result row from a simulator result and the already
computed speedup/efficiency. -/
def mkRecord (t : ℤ) (r : ℕ) (res : SimResult) (sp eff : ℚ) : RunRecord :=
  { num_threads := t
    run_idx := r
    wall_time_s := res.execution_time_s
    actual_iterations := res.actual_iterations
    tour_length := res.tour_length
    speedup_ratio := sp
    efficiency := eff
    iterations_per_second := (res.actual_iterations : ℚ) / res.execution_time_s }

/-- One iteration of the inner `for run in range(runs)` body shared by
`run_fixed_iterations_experiment` (lines 247-283) and
`run_time_budget_experiment` (lines 330-368): run the simulator, append
the wall time to the per-instance serial-times list when
`num_threads == 1`, then compute speedup/efficiency — defaulting both
to `1.0` unless `num_threads > 1 and run < len(serial_times)`. -/
def processConfig (inst : TSPInstance) (iterations : ℤ) (budget : Option ℚ)
    (rnd : ℤ → ℕ → Randomness) (st : List ℚ × List RunRecord) (cfg : ℤ × ℕ) :
    List ℚ × List RunRecord :=
  let res := simulate_aco_experiment inst cfg.1 iterations budget (rnd cfg.1 cfg.2)
  let serial := if cfg.1 = 1 then st.1 ++ [res.execution_time_s] else st.1
  if 1 < cfg.1 ∧ cfg.2 < serial.length then
    (serial,
      st.2 ++ [mkRecord cfg.1 cfg.2 res (serial.getD cfg.2 0 / res.execution_time_s)
        (serial.getD cfg.2 0 / res.execution_time_s / (cfg.1 : ℚ))])
  else
    (serial, st.2 ++ [mkRecord cfg.1 cfg.2 res 1 1])

/-- The (thread count, run index) pairs visited for one instance, in
sweep order: threads `[1, 2, 4, 8]` outer, runs `0..runs-1` inner. -/
def sweepConfigs (runs : ℕ) : List (ℤ × ℕ) :=
  thread_configs.flatMap fun t => (List.range runs).map fun r => (t, r)

/-- The per-instance sweep of either experiment mode: the serial-times
list starts empty and the rows are accumulated in sweep order.  With
`budget = none` this is the body of the instance loop of
`run_fixed_iterations_experiment`; with `budget = some tb` it is the
body of the instance loop of `run_time_budget_experiment`. -/
def sweepInstance (inst : TSPInstance) (iterations : ℤ) (budget : Option ℚ) (runs : ℕ)
    (rnd : ℤ → ℕ → Randomness) : List RunRecord :=
  ((sweepConfigs runs).foldl (processConfig inst iterations budget rnd) ([], [])).2

/-- `TSPExperimentRunner.run_fixed_iterations_experiment` (lines
223-302): per-instance sweeps with a fresh serial-times list per
instance, concatenated in catalog order. -/
def run_fixed_iterations_experiment (insts : List TSPInstance) (iterations : ℤ) (runs : ℕ)
    (rnd : String → ℤ → ℕ → Randomness) : List RunRecord :=
  insts.flatMap fun inst => sweepInstance inst iterations none runs (rnd inst.name)

/-- Lookup in the `self.baseline_times` dictionary, modelled as an
association list; `none` models a `KeyError`. -/
def lookupBaseline (baselines : List (String × ℚ)) (name : String) : Option ℚ :=
  (baselines.find? fun p => p.1 = name).map Prod.snd

/-- The instance loop of `run_time_budget_experiment` (lines 319-378):
each instance's budget is read from `self.baseline_times`
(`KeyError` — modelled as `Except.error` — if absent, which aborts the
whole loop and discards every row collected so far), the iteration cap
is the literal `10000`, and the per-instance serial-times list is reset
for each instance. -/
def timeBudgetLoop (baselines : List (String × ℚ)) (runs : ℕ)
    (rnd : String → ℤ → ℕ → Randomness) : List TSPInstance → Except String (List RunRecord)
  | [] => Except.ok []
  | inst :: rest =>
    match lookupBaseline baselines inst.name with
    | none => Except.error inst.name
    | some tb =>
      match timeBudgetLoop baselines runs rnd rest with
      | Except.ok more =>
          Except.ok (sweepInstance inst 10000 (some tb) runs (rnd inst.name) ++ more)
      | Except.error e => Except.error e

/-- `TSPExperimentRunner.run_time_budget_experiment` (lines 304-387):
`if not self.baseline_times:` prints an error and returns an empty
DataFrame (no exception), modelled as `Except.ok []`; otherwise the
instance loop runs. -/
def run_time_budget_experiment (insts : List TSPInstance) (baselines : List (String × ℚ))
    (runs : ℕ) (rnd : String → ℤ → ℕ → Randomness) : Except String (List RunRecord) :=
  if baselines = [] then Except.ok []
  else timeBudgetLoop baselines runs rnd insts

/-- A fixed randomness oracle (normal draw 0, uniform draw 1/2) used
for concrete witnesses. -/
def rz : ℤ → ℕ → Randomness := fun _ _ => ⟨0, 1 / 2⟩

/-- `rz` lifted to the per-instance oracle shape. -/
def rzN : String → ℤ → ℕ → Randomness := fun _ => rz

/-- The serial (`thread_count = 1`) simulator call of repetition `r`
inside one instance sweep. -/
def serialSim (inst : TSPInstance) (iterations : ℤ) (budget : Option ℚ)
    (rnd : ℤ → ℕ → Randomness) (r : ℕ) : SimResult :=
  simulate_aco_experiment inst 1 iterations budget (rnd 1 r)

/-- The simulator call at thread count `t`, repetition `r` inside one
instance sweep. -/
def parSim (inst : TSPInstance) (iterations : ℤ) (budget : Option ℚ)
    (rnd : ℤ → ℕ → Randomness) (t : ℤ) (r : ℕ) : SimResult :=
  simulate_aco_experiment inst t iterations budget (rnd t r)

/-- The result row emitted for the serial run of repetition `r`
(speedup and efficiency keep their defaults `1.0`). -/
def serialRecordOf (inst : TSPInstance) (iterations : ℤ) (budget : Option ℚ)
    (rnd : ℤ → ℕ → Randomness) (r : ℕ) : RunRecord :=
  mkRecord 1 r (serialSim inst iterations budget rnd r) 1 1

/-- The per-instance serial-times list after the `thread_count = 1`
block: the wall times of runs `0..runs-1`. -/
def serialWalls (inst : TSPInstance) (iterations : ℤ) (budget : Option ℚ)
    (rnd : ℤ → ℕ → Randomness) (runs : ℕ) : List ℚ :=
  (List.range runs).map fun r => (serialSim inst iterations budget rnd r).execution_time_s

/-- The result row emitted for a parallel run at thread count `t`,
repetition `r`, when the serial-times list is `S` and `r <
S.length`. -/
def parRecordOf (inst : TSPInstance) (iterations : ℤ) (budget : Option ℚ)
    (rnd : ℤ → ℕ → Randomness) (S : List ℚ) (t : ℤ) (r : ℕ) : RunRecord :=
  mkRecord t r (parSim inst iterations budget rnd t r)
    (S.getD r 0 / (parSim inst iterations budget rnd t r).execution_time_s)
    (S.getD r 0 / (parSim inst iterations budget rnd t r).execution_time_s / (t : ℚ))

/-- Modelled from the spec: "`iterations_completed` is the largest
iteration count reachable within that ceiling given the same
per-iteration cost model, clamped to an algorithm-specific upper
iteration ceiling" — with the code's own per-iteration cost
`base_time / cap`, this is the truncation of `budget / (base_time /
cap)`, clamped to `cap`. -/
def spec_budget_iterations (budget base_time : ℚ) (cap : ℤ) : ℤ :=
  min cap (pyInt (budget / (base_time / (cap : ℚ))))

/-! ## Helper lemmas about the simulator -/

lemma epf_of_le_one {t : ℤ} (ht : t ≤ 1) : effective_parallel_factor t = 1 := by
  unfold effective_parallel_factor
  rw [max_eq_left]
  have htq : (t : ℚ) ≤ 1 := by exact_mod_cast ht
  nlinarith

lemma epf_of_two_le {t : ℤ} (ht : 2 ≤ t) :
    effective_parallel_factor t = (t : ℚ) * (7 / 10) := by
  unfold effective_parallel_factor
  rw [max_eq_right]
  have htq : (2 : ℚ) ≤ (t : ℚ) := by exact_mod_cast ht
  nlinarith

lemma one_le_epf (t : ℤ) : 1 ≤ effective_parallel_factor t := le_max_left 1 _

lemma epf_pos (t : ℤ) : 0 < effective_parallel_factor t :=
  lt_of_lt_of_le one_pos (one_le_epf t)

lemma simulate_budget_exec (inst : TSPInstance) (t cap : ℤ) (b : ℚ) (hb : b ≠ 0)
    (rnd : Randomness) :
    (simulate_aco_experiment inst t cap (some b) rnd).execution_time_s =
      min b ((inst.size : ℚ) * (1 / 100) / effective_parallel_factor t) := by
  simp [simulate_aco_experiment, budgetTruthy, hb]

lemma simulate_budget_iters (inst : TSPInstance) (t cap : ℤ) (b : ℚ) (hb : b ≠ 0)
    (rnd : Randomness) :
    (simulate_aco_experiment inst t cap (some b) rnd).actual_iterations =
      min cap (pyInt ((min b ((inst.size : ℚ) * (1 / 100) / effective_parallel_factor t)) /
        ((inst.size : ℚ) * (1 / 100) / (cap : ℚ)))) := by
  simp [simulate_aco_experiment, budgetTruthy, hb]

/-! ## C1: determinism of the run simulator -/

/-- C1 (counterexample): two simulator calls with the identical
configuration (instance `eil51`, 1 thread, iteration cap 2, no budget —
and `random_seed` is not an input of `simulate_aco_experiment` at all)
return different tour lengths when the unseeded global random draws
differ, so the returned results are not identical in every field. -/
theorem run_result_not_config_deterministic :
    (simulate_aco_experiment eil51 1 2 none ⟨0, 1 / 2⟩).tour_length = 426 ∧
    (simulate_aco_experiment eil51 1 2 none ⟨1 / 10, 1 / 2⟩).tour_length = 2343 / 5 ∧
    (simulate_aco_experiment eil51 1 2 none ⟨0, 1 / 2⟩).tour_length ≠
      (simulate_aco_experiment eil51 1 2 none ⟨1 / 10, 1 / 2⟩).tour_length := by
  norm_num [simulate_aco_experiment, eil51, budgetTruthy]

/-- C1 (amended): only the timing fields are deterministic — for any
two random draws, `execution_time_s` and `actual_iterations` of
`simulate_aco_experiment` agree for an identical configuration; the
quality fields depend on random draws that `random_seed` never
controls. -/
theorem timing_fields_deterministic (inst : TSPInstance) (t cap : ℤ) (budget : Option ℚ)
    (r₁ r₂ : Randomness) :
    (simulate_aco_experiment inst t cap budget r₁).execution_time_s =
        (simulate_aco_experiment inst t cap budget r₂).execution_time_s ∧
    (simulate_aco_experiment inst t cap budget r₁).actual_iterations =
        (simulate_aco_experiment inst t cap budget r₂).actual_iterations :=
  ⟨rfl, rfl⟩

/-! ## C2: fixed-iteration cost model -/

/-- C2 (confirmed): a fixed-iteration run (no time budget) completes
exactly the iteration cap, its wall time is
`per_city_cost * city_count * cap / effective_parallel_factor t` with
`per_city_cost = 1/100`, and the effective parallel factor
`max(1, 0.7 t)` never exceeds the thread count and is strictly
monotone in the thread count, for every thread count `≥ 1`. -/
theorem fixed_iterations_wall_time_model (inst : TSPInstance) (t cap : ℤ) (rnd : Randomness)
    (ht : 1 ≤ t) :
    (simulate_aco_experiment inst t cap none rnd).actual_iterations = cap ∧
    (simulate_aco_experiment inst t cap none rnd).execution_time_s =
      ((1 / 100) * (inst.size : ℚ) * (cap : ℚ)) / effective_parallel_factor t ∧
    effective_parallel_factor t ≤ (t : ℚ) ∧
    (∀ a b : ℤ, 1 ≤ a → a < b →
      effective_parallel_factor a < effective_parallel_factor b) := by
  refine ⟨rfl, ?_, ?_, ?_⟩
  · show (inst.size : ℚ) * (1 / 100) * (cap : ℚ) / effective_parallel_factor t = _
    ring_nf
  · have h1 : (1 : ℚ) ≤ (t : ℚ) := by exact_mod_cast ht
    apply max_le h1
    nlinarith
  · intro a b ha hab
    have hb2 : 2 ≤ b := by omega
    rw [epf_of_two_le hb2]
    have hbq : (2 : ℚ) ≤ (b : ℚ) := by exact_mod_cast hb2
    rcases (by omega : a = 1 ∨ 2 ≤ a) with h1 | h2
    · rw [h1, epf_of_le_one le_rfl]
      nlinarith
    · rw [epf_of_two_le h2]
      have haq : (a : ℚ) < (b : ℚ) := by exact_mod_cast hab
      nlinarith

/-- Witness for C2 at instance `eil51`, 4 threads, iteration cap 2. -/
theorem fixed_iterations_wall_time_model_witness :
    (1 : ℤ) ≤ 4 ∧
    (simulate_aco_experiment eil51 4 2 none (rz 4 0)).execution_time_s =
      ((1 / 100) * (eil51.size : ℚ) * ((2 : ℤ) : ℚ)) / effective_parallel_factor 4 :=
  ⟨by norm_num, (fixed_iterations_wall_time_model eil51 4 2 (rz 4 0) (by norm_num)).2.1⟩

/-! ## C5: behavior on non-positive thread counts -/

/-- C5 (counterexample): a run with `thread_count = 0` does not fail —
`simulate_aco_experiment` returns a fully populated result (the
divisor `max(1, 0.7 * 0)` clamps to 1), so a `RunResult` is produced
for this configuration and no error is raised before timing. -/
theorem zero_threads_produces_result :
    simulate_aco_experiment eil51 0 2 none ⟨0, 1 / 2⟩ =
      { execution_time_s := 51 / 50, actual_iterations := 2, tour_length := 426,
        convergence_iteration := 1 } := by
  norm_num [simulate_aco_experiment, eil51, budgetTruthy, effective_parallel_factor,
    max_def, pyInt, SimResult.mk.injEq]

/-- C5 (amended): the simulator performs no configuration validation;
every thread count `≤ 1` (including 0 and negative values) is clamped
by `max(1, 0.7 t)` and yields exactly the result of the serial
(`thread_count = 1`) run of the same configuration. -/
theorem nonpositive_threads_treated_as_serial (inst : TSPInstance) (t cap : ℤ)
    (budget : Option ℚ) (rnd : Randomness) (ht : t ≤ 1) :
    simulate_aco_experiment inst t cap budget rnd =
      simulate_aco_experiment inst 1 cap budget rnd := by
  unfold simulate_aco_experiment
  have h1 : ¬(1 < t) := by omega
  simp only [epf_of_le_one ht, epf_of_le_one (le_refl 1), if_neg h1, lt_irrefl, if_false]

/-- Witness for the amended C5 at `thread_count = 0`. -/
theorem nonpositive_threads_treated_as_serial_witness :
    (0 : ℤ) ≤ 1 ∧
    simulate_aco_experiment eil51 0 2 none (rz 0 0) =
      simulate_aco_experiment eil51 1 2 none (rz 0 0) :=
  ⟨by norm_num, nonpositive_threads_treated_as_serial eil51 0 2 none (rz 0 0) (by norm_num)⟩

/-! ## C7: objective value versus the optimal objective -/

/-- C7 (counterexample): at 2 threads with a normal draw of exactly 0
the quality factor is `1 * (1 - 0.01) = 0.99`, so the returned tour
length `426 * 0.99 = 21087/50` is strictly below the instance optimal
426: the perturbation model does allow `objective_value <
optimal_objective`. -/
theorem tour_length_below_optimal :
    (simulate_aco_experiment eil51 2 2 none ⟨0, 1 / 2⟩).tour_length = 21087 / 50 ∧
    (simulate_aco_experiment eil51 2 2 none ⟨0, 1 / 2⟩).tour_length < eil51.optimal := by
  norm_num [simulate_aco_experiment, eil51, budgetTruthy]

/-- C7 (amended): the tour length equals
`optimal * (1 + normal_draw) * (1 - (t - 1) * 0.01)` for every run with
more than one thread; no clamping at the optimal value is applied, so
the result is below the optimum whenever the factor is below 1. -/
theorem tour_length_formula (inst : TSPInstance) (t cap : ℤ) (budget : Option ℚ)
    (rnd : Randomness) (ht : 1 < t) :
    (simulate_aco_experiment inst t cap budget rnd).tour_length =
      inst.optimal * ((1 + rnd.normalDraw) * (1 - ((t : ℚ) - 1) * (1 / 100))) := by
  simp [simulate_aco_experiment, ht]

/-! ## C3: time-budget run policy -/

/-- C3 (counterexample): for `eil51` at 8 threads with budget `1.02 =
51/50` and cap 10000, the code returns 1785 iterations (computed from
the returned wall time `min(1.02, base_time/5.6) = 51/560`), while the
largest iteration count reachable within the budget ceiling itself
would be 10000 — the claim's "reachable within that time
[= time_budget]" reading is false on the code. -/
theorem budget_iterations_not_within_ceiling :
    (simulate_aco_experiment eil51 8 10000 (some (51 / 50)) ⟨0, 1 / 2⟩).actual_iterations
      = 1785 ∧
    spec_budget_iterations (51 / 50) ((eil51.size : ℚ) * (1 / 100)) 10000 = 10000 ∧
    (simulate_aco_experiment eil51 8 10000 (some (51 / 50)) ⟨0, 1 / 2⟩).actual_iterations ≠
      spec_budget_iterations (51 / 50) ((eil51.size : ℚ) * (1 / 100)) 10000 := by
  norm_num [simulate_aco_experiment, spec_budget_iterations, eil51, budgetTruthy,
    effective_parallel_factor, max_def, pyInt]

lemma pyInt_of_nonneg {q : ℚ} (h : 0 ≤ q) : pyInt q = ⌊q⌋ := if_pos h

/-- C3 (amended): for a time-budget run (positive budget, positive
city count and cap) the returned wall time never exceeds the budget,
and `actual_iterations` is the largest iteration count not exceeding
the cap whose total cost — at the per-iteration cost
`base_time / cap` — fits within the *returned wall time*
`min(budget, base_time / effective_parallel_factor)`, not within the
full budget ceiling. -/
theorem time_budget_run_model (inst : TSPInstance) (t cap : ℤ) (b : ℚ) (rnd : Randomness)
    (hb : 0 < b) (hsize : 0 < inst.size) (hcap : 0 < cap) :
    (simulate_aco_experiment inst t cap (some b) rnd).execution_time_s ≤ b ∧
    (simulate_aco_experiment inst t cap (some b) rnd).actual_iterations ≤ cap ∧
    ((simulate_aco_experiment inst t cap (some b) rnd).actual_iterations : ℚ) *
        ((inst.size : ℚ) * (1 / 100) / (cap : ℚ)) ≤
      (simulate_aco_experiment inst t cap (some b) rnd).execution_time_s ∧
    (∀ n : ℤ, n ≤ cap →
      (n : ℚ) * ((inst.size : ℚ) * (1 / 100) / (cap : ℚ)) ≤
        (simulate_aco_experiment inst t cap (some b) rnd).execution_time_s →
      n ≤ (simulate_aco_experiment inst t cap (some b) rnd).actual_iterations) := by
  have hbne : b ≠ 0 := ne_of_gt hb
  rw [simulate_budget_exec inst t cap b hbne rnd, simulate_budget_iters inst t cap b hbne rnd]
  have hbase : (0 : ℚ) < (inst.size : ℚ) * (1 / 100) := by
    have : (0 : ℚ) < (inst.size : ℚ) := by exact_mod_cast hsize
    nlinarith
  have hcapq : (0 : ℚ) < (cap : ℚ) := by exact_mod_cast hcap
  have hc : (0 : ℚ) < (inst.size : ℚ) * (1 / 100) / (cap : ℚ) := div_pos hbase hcapq
  have hW : (0 : ℚ) < min b ((inst.size : ℚ) * (1 / 100) / effective_parallel_factor t) :=
    lt_min hb (div_pos hbase (epf_pos t))
  set W := min b ((inst.size : ℚ) * (1 / 100) / effective_parallel_factor t) with hWdef
  set c := (inst.size : ℚ) * (1 / 100) / (cap : ℚ) with hcdef
  have hWc : (0 : ℚ) ≤ W / c := le_of_lt (div_pos hW hc)
  rw [pyInt_of_nonneg hWc]
  refine ⟨min_le_left _ _, min_le_left _ _, ?_, ?_⟩
  · have h1 : min cap ⌊W / c⌋ ≤ ⌊W / c⌋ := min_le_right _ _
    have h2 : ((min cap ⌊W / c⌋ : ℤ) : ℚ) ≤ ((⌊W / c⌋ : ℤ) : ℚ) := by exact_mod_cast h1
    have h3 : ((⌊W / c⌋ : ℤ) : ℚ) ≤ W / c := Int.floor_le _
    have h4 : ((min cap ⌊W / c⌋ : ℤ) : ℚ) ≤ W / c := le_trans h2 h3
    calc ((min cap ⌊W / c⌋ : ℤ) : ℚ) * c ≤ (W / c) * c := by nlinarith
      _ = W := div_mul_cancel₀ W (ne_of_gt hc)
  · intro n hn hnc
    refine le_min hn (Int.le_floor.mpr ?_)
    rw [le_div_iff₀ hc]
    exact hnc

/-- Witness for the amended C3 at `eil51`, 8 threads, budget `51/50`,
cap 10000. -/
theorem time_budget_run_model_witness :
    (0 : ℚ) < 51 / 50 ∧ 0 < eil51.size ∧ (0 : ℤ) < 10000 ∧
    (simulate_aco_experiment eil51 8 10000 (some (51 / 50)) ⟨0, 1 / 2⟩).execution_time_s
      ≤ 51 / 50 :=
  ⟨by norm_num, by norm_num [eil51], by norm_num,
    (time_budget_run_model eil51 8 10000 (51 / 50) ⟨0, 1 / 2⟩ (by norm_num)
      (by norm_num [eil51]) (by norm_num)).1⟩
theorem tour_length_formula_witness :
    (1 : ℤ) < 2 ∧
    (simulate_aco_experiment eil51 2 2 none (rz 2 0)).tour_length =
      eil51.optimal * ((1 + (rz 2 0).normalDraw) * (1 - (((2 : ℤ) : ℚ) - 1) * (1 / 100))) :=
  ⟨by norm_num, tour_length_formula eil51 2 2 none (rz 2 0) (by norm_num)⟩

/-! ## Structure of one instance sweep -/

lemma processConfig_one (inst : TSPInstance) (iterations : ℤ) (budget : Option ℚ)
    (rnd : ℤ → ℕ → Randomness) (st : List ℚ × List RunRecord) (r : ℕ) :
    processConfig inst iterations budget rnd st (1, r) =
      (st.1 ++ [(serialSim inst iterations budget rnd r).execution_time_s],
       st.2 ++ [serialRecordOf inst iterations budget rnd r]) := by
  simp [processConfig, serialRecordOf, serialSim]

lemma processConfig_gt_in (inst : TSPInstance) (iterations : ℤ) (budget : Option ℚ)
    (rnd : ℤ → ℕ → Randomness) (t : ℤ) (ht : 1 < t) (st : List ℚ × List RunRecord)
    (r : ℕ) (hr : r < st.1.length) :
    processConfig inst iterations budget rnd st (t, r) =
      (st.1, st.2 ++ [parRecordOf inst iterations budget rnd st.1 t r]) := by
  have ht1 : t ≠ 1 := by omega
  simp [processConfig, parRecordOf, parSim, ht1, ht, hr]

lemma processConfig_gt_out (inst : TSPInstance) (iterations : ℤ) (budget : Option ℚ)
    (rnd : ℤ → ℕ → Randomness) (t : ℤ) (ht : 1 < t) (st : List ℚ × List RunRecord)
    (r : ℕ) (hr : st.1.length ≤ r) :
    processConfig inst iterations budget rnd st (t, r) =
      (st.1, st.2 ++ [mkRecord t r (parSim inst iterations budget rnd t r) 1 1]) := by
  have ht1 : t ≠ 1 := by omega
  have hr' : ¬r < st.1.length := not_lt.mpr hr
  simp [processConfig, parSim, ht1, hr']

lemma foldl_serial_block (inst : TSPInstance) (iterations : ℤ) (budget : Option ℚ)
    (rnd : ℤ → ℕ → Randomness) (rs : List ℕ) (st : List ℚ × List RunRecord) :
    (rs.map fun r => ((1 : ℤ), r)).foldl (processConfig inst iterations budget rnd) st =
      (st.1 ++ rs.map fun r => (serialSim inst iterations budget rnd r).execution_time_s,
       st.2 ++ rs.map (serialRecordOf inst iterations budget rnd)) := by
  induction rs generalizing st with
  | nil => simp
  | cons r rs ih =>
    simp only [List.map_cons, List.foldl_cons, processConfig_one]
    rw [ih]
    simp

lemma foldl_parallel_block (inst : TSPInstance) (iterations : ℤ) (budget : Option ℚ)
    (rnd : ℤ → ℕ → Randomness) (t : ℤ) (ht : 1 < t) (rs : List ℕ) (S : List ℚ)
    (recs : List RunRecord) (hrs : ∀ r ∈ rs, r < S.length) :
    (rs.map fun r => (t, r)).foldl (processConfig inst iterations budget rnd) (S, recs) =
      (S, recs ++ rs.map (parRecordOf inst iterations budget rnd S t)) := by
  induction rs generalizing recs with
  | nil => simp
  | cons r rs ih =>
    simp only [List.map_cons, List.foldl_cons]
    rw [processConfig_gt_in inst iterations budget rnd t ht (S, recs) r
      (hrs r (List.mem_cons_self r rs))]
    rw [ih _ (fun x hx => hrs x (List.mem_cons_of_mem r hx))]
    simp

lemma serialWalls_length (inst : TSPInstance) (iterations : ℤ) (budget : Option ℚ)
    (rnd : ℤ → ℕ → Randomness) (runs : ℕ) :
    (serialWalls inst iterations budget rnd runs).length = runs := by
  simp [serialWalls]

lemma sweepInstance_eq (inst : TSPInstance) (iterations : ℤ) (budget : Option ℚ)
    (rnd : ℤ → ℕ → Randomness) (runs : ℕ) :
    sweepInstance inst iterations budget runs rnd =
      (List.range runs).map (serialRecordOf inst iterations budget rnd) ++
        ((List.range runs).map
            (parRecordOf inst iterations budget rnd
              (serialWalls inst iterations budget rnd runs) 2) ++
          ((List.range runs).map
              (parRecordOf inst iterations budget rnd
                (serialWalls inst iterations budget rnd runs) 4) ++
            (List.range runs).map
              (parRecordOf inst iterations budget rnd
                (serialWalls inst iterations budget rnd runs) 8))) := by
  have hrs : ∀ r ∈ List.range runs,
      r < (serialWalls inst iterations budget rnd runs).length := by
    intro r hr
    rw [serialWalls_length]
    exact List.mem_range.mp hr
  have hwalls : (List.range runs).map
      (fun r => (serialSim inst iterations budget rnd r).execution_time_s) =
      serialWalls inst iterations budget rnd runs := rfl
  unfold sweepInstance sweepConfigs thread_configs
  simp only [List.flatMap_cons, List.flatMap_nil, List.append_nil, List.foldl_append]
  rw [foldl_serial_block]
  simp only [List.nil_append, hwalls]
  rw [foldl_parallel_block inst iterations budget rnd 2 (by norm_num) _ _ _ hrs]
  rw [foldl_parallel_block inst iterations budget rnd 4 (by norm_num) _ _ _ hrs]
  rw [foldl_parallel_block inst iterations budget rnd 8 (by norm_num) _ _ _ hrs]
  simp [List.append_assoc]

lemma sweep_mem_cases (inst : TSPInstance) (iterations : ℤ) (budget : Option ℚ)
    (rnd : ℤ → ℕ → Randomness) (runs : ℕ) (rec : RunRecord)
    (h : rec ∈ sweepInstance inst iterations budget runs rnd) :
    (∃ r, r < runs ∧ rec = serialRecordOf inst iterations budget rnd r) ∨
    (∃ t, (t = 2 ∨ t = 4 ∨ t = 8) ∧ ∃ r, r < runs ∧
      rec = parRecordOf inst iterations budget rnd
        (serialWalls inst iterations budget rnd runs) t r) := by
  rw [sweepInstance_eq] at h
  simp only [List.mem_append, List.mem_map, List.mem_range] at h
  rcases h with ⟨r, hr, hrec⟩ | ⟨r, hr, hrec⟩ | ⟨r, hr, hrec⟩ | ⟨r, hr, hrec⟩
  · exact Or.inl ⟨r, hr, hrec.symm⟩
  · exact Or.inr ⟨2, Or.inl rfl, r, hr, hrec.symm⟩
  · exact Or.inr ⟨4, Or.inr (Or.inl rfl), r, hr, hrec.symm⟩
  · exact Or.inr ⟨8, Or.inr (Or.inr rfl), r, hr, hrec.symm⟩

lemma serialWalls_getD (inst : TSPInstance) (iterations : ℤ) (budget : Option ℚ)
    (rnd : ℤ → ℕ → Randomness) (runs r : ℕ) (hr : r < runs) :
    (serialWalls inst iterations budget rnd runs).getD r 0 =
      (serialSim inst iterations budget rnd r).execution_time_s := by
  have h1 : r < (serialWalls inst iterations budget rnd runs).length := by
    rw [serialWalls_length]; exact hr
  rw [List.getD_eq_getElem _ _ h1]
  simp [serialWalls]

lemma sweep_efficiency (inst : TSPInstance) (iterations : ℤ) (budget : Option ℚ)
    (rnd : ℤ → ℕ → Randomness) (runs : ℕ) (rec : RunRecord)
    (h : rec ∈ sweepInstance inst iterations budget runs rnd) :
    rec.efficiency = rec.speedup_ratio / (rec.num_threads : ℚ) := by
  rcases sweep_mem_cases inst iterations budget rnd runs rec h with
    ⟨r, _, hrec⟩ | ⟨t, htv, r, _, hrec⟩
  · rw [hrec]
    norm_num [serialRecordOf, mkRecord]
  · rw [hrec]
    rcases htv with rfl | rfl | rfl <;> simp [parRecordOf, mkRecord]

lemma sweep_serial_identity (inst : TSPInstance) (iterations : ℤ) (budget : Option ℚ)
    (rnd : ℤ → ℕ → Randomness) (runs : ℕ) (rec : RunRecord)
    (h : rec ∈ sweepInstance inst iterations budget runs rnd)
    (h1 : rec.num_threads = 1) :
    rec.speedup_ratio = 1 ∧ rec.efficiency = 1 := by
  rcases sweep_mem_cases inst iterations budget rnd runs rec h with
    ⟨r, _, hrec⟩ | ⟨t, htv, r, _, hrec⟩
  · rw [hrec]
    exact ⟨rfl, rfl⟩
  · rw [hrec] at h1
    have : t = 1 := h1
    rcases htv with rfl | rfl | rfl <;> omega

lemma timeBudgetLoop_mem (baselines : List (String × ℚ)) (runs : ℕ)
    (rnd : String → ℤ → ℕ → Randomness) :
    ∀ (insts : List TSPInstance) (recs : List RunRecord),
      timeBudgetLoop baselines runs rnd insts = Except.ok recs →
      ∀ rec ∈ recs, ∃ inst tb,
        rec ∈ sweepInstance inst 10000 (some tb) runs (rnd inst.name) := by
  intro insts
  induction insts with
  | nil =>
    intro recs h rec hrec
    simp only [timeBudgetLoop, Except.ok.injEq] at h
    rw [← h] at hrec
    simp at hrec
  | cons inst rest ih =>
    intro recs h rec hrec
    rw [timeBudgetLoop] at h
    cases hlook : lookupBaseline baselines inst.name with
    | none => rw [hlook] at h; cases h
    | some tb =>
      rw [hlook] at h
      cases hrest : timeBudgetLoop baselines runs rnd rest with
      | error e => rw [hrest] at h; cases h
      | ok more =>
        rw [hrest] at h
        simp only [Except.ok.injEq] at h
        rw [← h] at hrec
        rcases List.mem_append.mp hrec with h1 | h2
        · exact ⟨inst, tb, h1⟩
        · exact ih more hrest rec h2

/-- Concrete evaluation of one instance sweep: `eil51`, iteration cap
2, no budget, one repetition, fixed random draws `(0, 1/2)`. -/
lemma sweep_eval :
    sweepInstance eil51 2 none 1 rz =
      [⟨1, 0, 51 / 50, 2, 426, 1, 1, 100 / 51⟩,
       ⟨2, 0, 51 / 70, 2, 21087 / 50, 7 / 5, 7 / 10, 140 / 51⟩,
       ⟨4, 0, 51 / 140, 2, 20661 / 50, 14 / 5, 7 / 10, 280 / 51⟩,
       ⟨8, 0, 51 / 280, 2, 19809 / 50, 28 / 5, 7 / 10, 560 / 51⟩] := by
  norm_num [sweepInstance, sweepConfigs, thread_configs, processConfig, mkRecord,
    simulate_aco_experiment, budgetTruthy, effective_parallel_factor, max_def, pyInt,
    eil51, rz, List.range_succ, RunRecord.mk.injEq]

/-! ## C10: the pairing fall-back is unreachable in the sweep -/

/-- C10 (confirmed): in the sweep order actually used — threads
`[1, 2, 4, 8]` with all repetitions of `thread_count = 1` first and a
fresh serial-times list per instance — every emitted record with
`thread_count > 1` has a repetition index below the number of serial
samples, and its speedup was computed from the genuinely paired serial
sample of the same repetition index: the `speedup = 1.0` fall-back
branch is unreachable for parallel records. -/
theorem parallel_records_genuinely_paired (inst : TSPInstance) (iterations : ℤ)
    (budget : Option ℚ) (runs : ℕ) (rnd : ℤ → ℕ → Randomness) (rec : RunRecord)
    (hrec : rec ∈ sweepInstance inst iterations budget runs rnd)
    (ht : 1 < rec.num_threads) :
    rec.run_idx < runs ∧
    rec.wall_time_s =
      (simulate_aco_experiment inst rec.num_threads iterations budget
        (rnd rec.num_threads rec.run_idx)).execution_time_s ∧
    rec.speedup_ratio =
      (serialSim inst iterations budget rnd rec.run_idx).execution_time_s /
        rec.wall_time_s := by
  rcases sweep_mem_cases inst iterations budget rnd runs rec hrec with
    ⟨r, hr, hrec'⟩ | ⟨t, htv, r, hr, hrec'⟩
  · rw [hrec'] at ht
    exact absurd ht (by norm_num [serialRecordOf, mkRecord])
  · subst hrec'
    refine ⟨hr, rfl, ?_⟩
    show (serialWalls inst iterations budget rnd runs).getD r 0 /
        (parSim inst iterations budget rnd t r).execution_time_s = _
    rw [serialWalls_getD inst iterations budget rnd runs r hr]
    rfl

/-- Witness for C10: the 2-thread record of the concrete `eil51` sweep
is paired with the serial wall time of repetition 0. -/
theorem parallel_records_genuinely_paired_witness :
    (⟨2, 0, 51 / 70, 2, 21087 / 50, 7 / 5, 7 / 10, 140 / 51⟩ : RunRecord) ∈
        sweepInstance eil51 2 none 1 rz ∧
    (0 : ℕ) < 1 ∧
    (51 / 70 : ℚ) = (simulate_aco_experiment eil51 2 2 none (rz 2 0)).execution_time_s ∧
    (7 / 5 : ℚ) = (serialSim eil51 2 none rz 0).execution_time_s / (51 / 70 : ℚ) := by
  have hmem : (⟨2, 0, 51 / 70, 2, 21087 / 50, 7 / 5, 7 / 10, 140 / 51⟩ : RunRecord) ∈
      sweepInstance eil51 2 none 1 rz := by
    rw [sweep_eval]
    simp
  have h := parallel_records_genuinely_paired eil51 2 none 1 rz _ hmem (by norm_num)
  exact ⟨hmem, h.1, h.2.1, h.2.2⟩

/-! ## C8: efficiency identity for every emitted record -/

/-- C8 (confirmed): every record emitted by either experiment mode —
any row of the fixed-iterations result log, and any row of a
successfully returned time-budget result log — satisfies
`efficiency = speedup / thread_count` exactly. -/
theorem efficiency_eq_speedup_div_threads (insts : List TSPInstance) (iterations : ℤ)
    (runs : ℕ) (baselines : List (String × ℚ)) (rndF rndT : String → ℤ → ℕ → Randomness) :
    (∀ rec ∈ run_fixed_iterations_experiment insts iterations runs rndF,
      rec.efficiency = rec.speedup_ratio / (rec.num_threads : ℚ)) ∧
    (∀ recs, run_time_budget_experiment insts baselines runs rndT = Except.ok recs →
      ∀ rec ∈ recs, rec.efficiency = rec.speedup_ratio / (rec.num_threads : ℚ)) := by
  constructor
  · intro rec h
    rw [run_fixed_iterations_experiment, List.mem_flatMap] at h
    obtain ⟨inst, _, hrec⟩ := h
    exact sweep_efficiency inst iterations none (rndF inst.name) runs rec hrec
  · intro recs h rec hrec
    rw [run_time_budget_experiment] at h
    by_cases hb : baselines = []
    · rw [if_pos hb] at h
      simp only [Except.ok.injEq] at h
      rw [← h] at hrec
      simp at hrec
    · rw [if_neg hb] at h
      obtain ⟨inst, tb, hmem⟩ := timeBudgetLoop_mem baselines runs rndT insts recs h rec hrec
      exact sweep_efficiency inst 10000 (some tb) (rndT inst.name) runs rec hmem

/-- Witness for C8: the 2-thread record of the concrete
fixed-iterations experiment over `[eil51]` has
`efficiency = speedup / 2`. -/
theorem efficiency_eq_speedup_div_threads_witness :
    (⟨2, 0, 51 / 70, 2, 21087 / 50, 7 / 5, 7 / 10, 140 / 51⟩ : RunRecord) ∈
        run_fixed_iterations_experiment [eil51] 2 1 rzN ∧
    (7 / 10 : ℚ) = (7 / 5 : ℚ) / ((2 : ℤ) : ℚ) := by
  have hmem : (⟨2, 0, 51 / 70, 2, 21087 / 50, 7 / 5, 7 / 10, 140 / 51⟩ : RunRecord) ∈
      run_fixed_iterations_experiment [eil51] 2 1 rzN := by
    simp only [run_fixed_iterations_experiment, List.flatMap_cons, List.flatMap_nil,
      List.append_nil]
    rw [show sweepInstance eil51 2 none 1 (rzN eil51.name) = sweepInstance eil51 2 none 1 rz
      from rfl]
    rw [sweep_eval]
    simp
  exact ⟨hmem,
    (efficiency_eq_speedup_div_threads [eil51] 2 1 [] rzN rzN).1 _ hmem⟩

/-! ## C9: serial records carry speedup 1 and efficiency 1 -/

/-- C9 (confirmed): every record emitted with `thread_count = 1` — in
the fixed-iterations mode and in any successfully returned time-budget
log — has `speedup = 1.0` and `efficiency = 1.0`. -/
theorem serial_records_speedup_one (insts : List TSPInstance) (iterations : ℤ)
    (runs : ℕ) (baselines : List (String × ℚ)) (rndF rndT : String → ℤ → ℕ → Randomness) :
    (∀ rec ∈ run_fixed_iterations_experiment insts iterations runs rndF,
      rec.num_threads = 1 → rec.speedup_ratio = 1 ∧ rec.efficiency = 1) ∧
    (∀ recs, run_time_budget_experiment insts baselines runs rndT = Except.ok recs →
      ∀ rec ∈ recs, rec.num_threads = 1 →
        rec.speedup_ratio = 1 ∧ rec.efficiency = 1) := by
  constructor
  · intro rec h h1
    rw [run_fixed_iterations_experiment, List.mem_flatMap] at h
    obtain ⟨inst, _, hrec⟩ := h
    exact sweep_serial_identity inst iterations none (rndF inst.name) runs rec hrec h1
  · intro recs h rec hrec h1
    rw [run_time_budget_experiment] at h
    by_cases hb : baselines = []
    · rw [if_pos hb] at h
      simp only [Except.ok.injEq] at h
      rw [← h] at hrec
      simp at hrec
    · rw [if_neg hb] at h
      obtain ⟨inst, tb, hmem⟩ := timeBudgetLoop_mem baselines runs rndT insts recs h rec hrec
      exact sweep_serial_identity inst 10000 (some tb) (rndT inst.name) runs rec hmem h1

/-- Witness for C9: the serial record of the concrete fixed-iterations
experiment over `[eil51]` has speedup 1 and efficiency 1. -/
theorem serial_records_speedup_one_witness :
    (⟨1, 0, 51 / 50, 2, 426, 1, 1, 100 / 51⟩ : RunRecord) ∈
        run_fixed_iterations_experiment [eil51] 2 1 rzN ∧
    ((⟨1, 0, 51 / 50, 2, 426, 1, 1, 100 / 51⟩ : RunRecord).speedup_ratio = 1 ∧
      (⟨1, 0, 51 / 50, 2, 426, 1, 1, 100 / 51⟩ : RunRecord).efficiency = 1) := by
  have hmem : (⟨1, 0, 51 / 50, 2, 426, 1, 1, 100 / 51⟩ : RunRecord) ∈
      run_fixed_iterations_experiment [eil51] 2 1 rzN := by
    simp only [run_fixed_iterations_experiment, List.flatMap_cons, List.flatMap_nil,
      List.append_nil]
    rw [show sweepInstance eil51 2 none 1 (rzN eil51.name) = sweepInstance eil51 2 none 1 rz
      from rfl]
    rw [sweep_eval]
    simp
  exact ⟨hmem,
    (serial_records_speedup_one [eil51] 2 1 [] rzN rzN).1 _ hmem rfl⟩

/-! ## C4: pairing rule and short-baseline fall-back -/

/-- C4 (counterexample): with a serial-times list of length 1 (one
baseline sample) and a parallel run at repetition index 1 (more
repetitions than baseline samples), the emitted record keeps the
default `speedup = 1.0` — it does **not** reuse the last available
baseline sample (which would give speedup `2 / (51/140) = 280/51 ≠ 1`),
and no pairing-degradation flag exists in the emitted row. -/
theorem short_baseline_not_reused :
    (processConfig eil51 1 none rz ([2], []) (2, 1)).2 =
      [mkRecord 2 1 (simulate_aco_experiment eil51 2 1 none (rz 2 1)) 1 1] ∧
    (2 : ℚ) / (simulate_aco_experiment eil51 2 1 none (rz 2 1)).execution_time_s
      = 280 / 51 ∧
    (280 : ℚ) / 51 ≠ 1 := by
  refine ⟨?_, ?_, by norm_num⟩
  · norm_num [processConfig]
  · norm_num [simulate_aco_experiment, eil51, budgetTruthy, effective_parallel_factor,
      max_def, rz]

/-- C4 (amended): for a parallel configuration (`thread_count > 1`)
the inner loop body pairs the run with the serial sample of the same
repetition index whenever one exists (`run < len(serial_times)`), and
otherwise leaves speedup and efficiency at their defaults `1.0` —
the last baseline sample is not reused, no degradation flag is
attached, and in either case a record is emitted without a crash. -/
theorem pairing_step_policy (inst : TSPInstance) (iterations : ℤ) (budget : Option ℚ)
    (rnd : ℤ → ℕ → Randomness) (st : List ℚ × List RunRecord) (t : ℤ) (r : ℕ)
    (ht : 1 < t) :
    (r < st.1.length →
      processConfig inst iterations budget rnd st (t, r) =
        (st.1, st.2 ++
          [mkRecord t r (simulate_aco_experiment inst t iterations budget (rnd t r))
            (st.1.getD r 0 /
              (simulate_aco_experiment inst t iterations budget (rnd t r)).execution_time_s)
            (st.1.getD r 0 /
              (simulate_aco_experiment inst t iterations budget (rnd t r)).execution_time_s /
              (t : ℚ))])) ∧
    (st.1.length ≤ r →
      processConfig inst iterations budget rnd st (t, r) =
        (st.1, st.2 ++
          [mkRecord t r (simulate_aco_experiment inst t iterations budget (rnd t r)) 1 1])) := by
  constructor
  · intro hr
    exact processConfig_gt_in inst iterations budget rnd t ht st r hr
  · intro hr
    exact processConfig_gt_out inst iterations budget rnd t ht st r hr

/-- Witness for the amended C4: at a serial-times list `[2]` and
repetition index 1, the step emits the default record. -/
theorem pairing_step_policy_witness :
    (1 : ℤ) < 2 ∧ ([(2 : ℚ)] : List ℚ).length ≤ 1 ∧
    processConfig eil51 1 none rz ([2], []) (2, 1) =
      ([2], [mkRecord 2 1 (simulate_aco_experiment eil51 2 1 none (rz 2 1)) 1 1]) :=
  ⟨by norm_num, by norm_num,
    (pairing_step_policy eil51 1 none rz ([2], []) 2 1 (by norm_num)).2 (by norm_num)⟩

/-! ## C6: time-budget sweep with missing baselines -/

/-- C6 (counterexample): starting the time-budget sweep with no
baseline measurements at all does not raise any error — the code
prints a message and returns an empty result set (`Except.ok []`), so
no `BaselineMissingError` is raised; and when baselines exist but one
instance's entry is missing, the resulting `KeyError` aborts the whole
remaining sweep (no record of any instance survives) instead of only
the affected instance. -/
theorem missing_baselines_not_raised :
    run_time_budget_experiment instanceCatalog [] 1 rzN = Except.ok [] ∧
    run_time_budget_experiment [eil51, kroA100] [("eil51", 1)] 1 rzN =
      Except.error "kroA100" := by
  constructor
  · rfl
  · simp only [run_time_budget_experiment, if_neg (by simp : ¬([("eil51", (1 : ℚ))] = []))]
    rw [timeBudgetLoop]
    rw [show lookupBaseline [("eil51", (1 : ℚ))] eil51.name = some 1 from rfl]
    rw [timeBudgetLoop]
    rw [show lookupBaseline [("eil51", (1 : ℚ))] kroA100.name = none from rfl]
    rfl

/-- C6 (amended): when the baseline map is empty the time-budget sweep
returns an empty record list without raising anything; when the map is
non-empty but the first instance has no baseline entry, the sweep
aborts with that instance's lookup error and produces no records for
any instance — the abort is not limited to the affected instance. -/
theorem time_budget_baseline_policy (insts : List TSPInstance) (inst : TSPInstance)
    (rest : List TSPInstance) (baselines : List (String × ℚ)) (runs : ℕ)
    (rnd : String → ℤ → ℕ → Randomness)
    (hne : baselines ≠ []) (hmiss : lookupBaseline baselines inst.name = none) :
    run_time_budget_experiment (inst :: rest) baselines runs rnd =
      Except.error inst.name ∧
    run_time_budget_experiment insts [] runs rnd = Except.ok [] := by
  constructor
  · rw [run_time_budget_experiment, if_neg hne, timeBudgetLoop, hmiss]
  · rw [run_time_budget_experiment, if_pos rfl]

/-- Witness for the amended C6: `kroA100` has no baseline entry in
`[("eil51", 1)]`, so the sweep over `[kroA100, ch150]` errors out
immediately with no records for `ch150` either. -/
theorem time_budget_baseline_policy_witness :
    ([("eil51", (1 : ℚ))] ≠ ([] : List (String × ℚ))) ∧
    lookupBaseline [("eil51", 1)] kroA100.name = none ∧
    run_time_budget_experiment [kroA100, ch150] [("eil51", 1)] 1 rzN =
      Except.error kroA100.name :=
  ⟨by simp, rfl,
    (time_budget_baseline_policy [] kroA100 [ch150] [("eil51", 1)] 1 rzN
      (by simp) rfl).1⟩

end ParallelACO
